import Mathlib

/-!
Verification development for the Paytech provider adapter of the
african-payment-hub repository (src/providers/paytech/*, src/types/*).

The TypeScript source is shallowly embedded:
* plain objects / dictionaries become association lists `List (String × String)`
  or explicit structures mirroring the TypeScript interfaces;
* JavaScript truthiness on optional strings (`undefined` and `""` are falsy)
  is modelled by `jsTruthy`; `a || b` by `jsOr`;
* JS numbers are modelled by `ℚ` (the code only ever compares them to zero,
  serialises integral amounts and parses decimal strings);
* `Date` values become `DateV` (`now` stands for the wall-clock value taken
  at call time, `ofString d` for `new Date(d)`);
* the HTTP layer is an oracle parameter `NetOutcome` (success payload, an
  Axios error carrying an HTTP response, or a transport-level failure), and a
  thrown exception is `Except.error` with the thrown message;
* `JSON.stringify` / `JSON.parse` (external runtime functions) are modelled by
  an executable codec over a `Json` value type (numbers restricted to
  integers, strings escaped for quote and backslash, no inter-token
  whitespace) together with a proved round-trip theorem;
* the HMAC-SHA256 primitive from node's `crypto` (external library) is a
  function parameter `hmac : String → String → String` (key, message); all
  statements about the webhook validator hold for every such function.
-/

/-- JavaScript truthiness of an optional string value: `undefined` (`none`)
and the empty string are falsy. -/
def jsTruthy : Option String → Bool
  | none => false
  | some s => s ≠ ""

/-- JavaScript `a || b` on optional string values. -/
def jsOr (a b : Option String) : Option String :=
  if jsTruthy a then a else b

/-- JavaScript `a || d` where `a` is an optional string and `d` a non-empty
string literal fallback (as in `response.error || "Unknown error occurred"`). -/
def jsOrDefault (a : Option String) (d : String) : String :=
  if jsTruthy a then a.getD "" else d

/-- JavaScript truthiness of an optional number (`undefined`, `0` falsy). -/
def jsNumTruthy : Option ℚ → Bool
  | none => false
  | some q => q ≠ 0

/-- A JavaScript `Date` value: either parsed from a string (`new Date(s)`) or
the wall-clock time at the moment of the call (`new Date()`). -/
inductive DateV where
  | ofString (s : String) : DateV
  | now : DateV
  deriving DecidableEq, Repr

/-- The unified `TransactionStatus` enumeration (src/types/payment.ts). -/
inductive TransactionStatus where
  | PENDING
  | COMPLETED
  | FAILED
  | CANCELED
  | REFUNDED
  | PARTIALLY_REFUNDED
  deriving DecidableEq, Repr

/-- The unified `WebhookEventType` enumeration (src/types/webhook.ts). -/
inductive WebhookEventType where
  | PAYMENT_SUCCESS
  | PAYMENT_FAILED
  | PAYMENT_PENDING
  | REFUND_SUCCESS
  | REFUND_FAILED
  | SUBSCRIPTION_CREATED
  | SUBSCRIPTION_CANCELED
  | SUBSCRIPTION_PAYMENT
  | SUBSCRIPTION_FAILED
  deriving DecidableEq, Repr

/-! ### A model of the JavaScript JSON codec

`JSON.stringify` and `JSON.parse` are runtime builtins, not repository code.
They are modelled by an executable codec over the `Json` value type below:
numbers are integers (the repository only round-trips metadata records such
as `{a: 1}`), strings escape `"` and `\`, and the writer emits no whitespace
(exactly like `JSON.stringify`), so the parser accepts none. The round-trip
theorem `jsonParse_jsonStringify` is proved for every `Json` value. -/

inductive Json where
  | null : Json
  | bool (b : Bool) : Json
  | num (n : Int) : Json
  | str (s : String) : Json
  | arr (elems : List Json) : Json
  | obj (fields : List (String × Json)) : Json
  deriving BEq, Repr

/-- Decimal digit character for `d < 10`. -/
def digCh : Nat → Char
  | 0 => '0' | 1 => '1' | 2 => '2' | 3 => '3' | 4 => '4'
  | 5 => '5' | 6 => '6' | 7 => '7' | 8 => '8' | _ => '9'

/-- Decimal digit characters of a positive number, most significant first,
in front of `acc`. -/
def natCharsAux : Nat → List Char → List Char
  | 0, acc => acc
  | n + 1, acc => natCharsAux ((n + 1) / 10) (digCh ((n + 1) % 10) :: acc)
decreasing_by exact Nat.div_lt_self (Nat.succ_pos n) (by norm_num)

/-- Decimal representation of a natural number, as `Number#toString` yields. -/
def natChars (n : Nat) : List Char := if n = 0 then ['0'] else natCharsAux n []

/-- Decimal representation of an integer. -/
def intChars (n : Int) : List Char :=
  if n < 0 then '-' :: natChars n.natAbs else natChars n.toNat

/-- Numeric value of a big-endian digit-character run. -/
def digsVal (ds : List Char) : Nat :=
  ds.foldl (fun a c => a * 10 + (c.toNat - 48)) 0

/-- JSON escape of one character: `"` and `\` get a backslash, anything else
is emitted raw. -/
def escCh (c : Char) : List Char :=
  if c = '"' || c = '\\' then ['\\', c] else [c]

/-- JSON escape of a character run. -/
def escRun : List Char → List Char
  | [] => []
  | c :: cs => escCh c ++ escRun cs

/-- The keyword `null` as characters. -/
def litNull : List Char := ['n', 'u', 'l', 'l']

/-- The keyword `true` as characters. -/
def litTrue : List Char := ['t', 'r', 'u', 'e']

/-- The keyword `false` as characters. -/
def litFalse : List Char := ['f', 'a', 'l', 's', 'e']

mutual

/-- The characters `JSON.stringify` produces for a value. -/
def writeJson : Json → List Char
  | .null => litNull
  | .bool b => if b then litTrue else litFalse
  | .num n => intChars n
  | .str s => '"' :: (escRun s.data ++ ['"'])
  | .arr es => '[' :: (writeElems es ++ [']'])
  | .obj fs => '{' :: (writeFields fs ++ ['}'])

/-- Comma-separated rendering of array elements. -/
def writeElems : List Json → List Char
  | [] => []
  | [e] => writeJson e
  | e :: e2 :: tl => writeJson e ++ ',' :: writeElems (e2 :: tl)

/-- Comma-separated rendering of object members. -/
def writeFields : List (String × Json) → List Char
  | [] => []
  | [(k, v)] => '"' :: (escRun k.data ++ '"' :: ':' :: writeJson v)
  | (k, v) :: f2 :: tl =>
      '"' :: (escRun k.data ++ '"' :: ':' :: writeJson v) ++ ',' :: writeFields (f2 :: tl)

end

/-- `JSON.stringify` on the model. -/
def jsonStringify (v : Json) : String := ⟨writeJson v⟩

/-- Reads a string body after the opening quote, undoing `escCh`. -/
def readStr : List Char → Option (List Char × List Char)
  | [] => none
  | '"' :: r => some ([], r)
  | '\\' :: c :: r =>
      match readStr r with
      | some (s, r1) => some (c :: s, r1)
      | none => none
  | c :: r =>
      match readStr r with
      | some (s, r1) => some (c :: s, r1)
      | none => none

/-- Reads an integer number (optional minus sign, then a digit run). -/
def readNum (cs : List Char) : Option (Int × List Char) :=
  match cs with
  | '-' :: r =>
      let ds := r.takeWhile Char.isDigit
      if ds.isEmpty then none
      else some (-(digsVal ds : Int), r.dropWhile Char.isDigit)
  | _ =>
      let ds := cs.takeWhile Char.isDigit
      if ds.isEmpty then none
      else some ((digsVal ds : Int), cs.dropWhile Char.isDigit)

mutual

/-- Reads one JSON value; `fuel` bounds the recursion (any fuel above the
input length suffices). -/
def readVal : Nat → List Char → Option (Json × List Char)
  | 0, _ => none
  | fuel + 1, cs =>
    match cs with
    | 'n' :: 'u' :: 'l' :: 'l' :: r => some (.null, r)
    | 't' :: 'r' :: 'u' :: 'e' :: r => some (.bool true, r)
    | 'f' :: 'a' :: 'l' :: 's' :: 'e' :: r => some (.bool false, r)
    | '"' :: r =>
        match readStr r with
        | some (s, r1) => some (.str ⟨s⟩, r1)
        | none => none
    | '[' :: r =>
        match r with
        | ']' :: r1 => some (.arr [], r1)
        | _ =>
            match readElems fuel r with
            | some (es, r1) => some (.arr es, r1)
            | none => none
    | '{' :: r =>
        match r with
        | '}' :: r1 => some (.obj [], r1)
        | _ =>
            match readFields fuel r with
            | some (fs, r1) => some (.obj fs, r1)
            | none => none
    | c :: t =>
        if c = '-' || c.isDigit then
          match readNum (c :: t) with
          | some (n, r1) => some (.num n, r1)
          | none => none
        else none
    | [] => none

/-- Reads one or more comma-separated array elements up to `]`. -/
def readElems : Nat → List Char → Option (List Json × List Char)
  | 0, _ => none
  | fuel + 1, cs =>
      match readVal fuel cs with
      | none => none
      | some (v, r) =>
          match r with
          | ',' :: r1 =>
              match readElems fuel r1 with
              | some (vs, r2) => some (v :: vs, r2)
              | none => none
          | ']' :: r1 => some ([v], r1)
          | _ => none

/-- Reads one or more comma-separated object members up to `}`. -/
def readFields : Nat → List Char → Option (List (String × Json) × List Char)
  | 0, _ => none
  | fuel + 1, cs =>
      match cs with
      | '"' :: r =>
          match readStr r with
          | none => none
          | some (k, r1) =>
              match r1 with
              | ':' :: r2 =>
                  match readVal fuel r2 with
                  | none => none
                  | some (v, r3) =>
                      match r3 with
                      | ',' :: r4 =>
                          match readFields fuel r4 with
                          | some (fs, r5) => some ((⟨k⟩, v) :: fs, r5)
                          | none => none
                      | '}' :: r4 => some ([(⟨k⟩, v)], r4)
                      | _ => none
              | _ => none
      | _ => none

end

/-- `JSON.parse` on the model: a whole-input parse; `none` models a thrown
`SyntaxError`. -/
def jsonParse (s : String) : Option Json :=
  match readVal (s.length + 1) s.data with
  | some (v, []) => some v
  | _ => none

example :
    (jsonStringify (Json.obj [("a", Json.num 1)])).data =
      ['{', '"', 'a', '"', ':', '1', '}'] := by
  simp [jsonStringify, writeJson, writeFields, escRun, escCh, intChars, natChars,
    natCharsAux, digCh]

example :
    jsonParse ⟨['{', '"', 'a', '"', ':', '1', '}']⟩ =
      some (Json.obj [("a", Json.num 1)]) := rfl

example : jsonParse "" = none := rfl

example : jsonParse "oops" = none := rfl

/-! ### The unified data model (src/types) -/

/-- A model of JavaScript `parseFloat` on the strings this codebase feeds it
(optional sign, digit run, optional fractional digit run; no exponent):
`none` models `NaN`. -/
def jsParseFloat (s : String) : Option ℚ :=
  let cs := s.data.dropWhile (fun c => c = ' ')
  let (sign, cs1) : ℚ × List Char :=
    match cs with
    | '-' :: r => (-1, r)
    | '+' :: r => (1, r)
    | _ => (1, cs)
  let intPart := cs1.takeWhile Char.isDigit
  let rest := cs1.dropWhile Char.isDigit
  let fracPart : List Char :=
    match rest with
    | '.' :: r2 => r2.takeWhile Char.isDigit
    | _ => []
  if intPart.isEmpty && fracPart.isEmpty then none
  else some (sign * ((digsVal intPart : ℚ) + (digsVal fracPart : ℚ) / 10 ^ fracPart.length))

example : jsParseFloat "5000" = some 5000 := by
  simp [jsParseFloat, digsVal, List.dropWhile, List.takeWhile]

/-- The unified environment tag (`"test" | "production"` in GatewayConfig). -/
inductive UnifiedEnv where
  | test
  | production
  deriving DecidableEq, Repr

/-- The unified `PaymentRequest` (src/types/payment.ts). Metadata is a JSON
object given by its fields. -/
structure PaymentRequest where
  amount : ℚ
  currency : String
  reference : String
  description : String
  customerEmail : Option String := none
  customerName : Option String := none
  customerPhone : Option String := none
  metadata : Option (List (String × Json)) := none
  returnUrl : Option String := none
  cancelUrl : Option String := none
  webhookUrl : Option String := none

/-- The unified `PaymentResponse` (src/types/payment.ts). -/
structure PaymentResponse where
  success : Bool
  redirectUrl : Option String := none
  paymentId : Option String := none
  token : Option String := none
  message : Option String := none
  status : Option TransactionStatus := none
  gatewayReference : Option String := none
  createdAt : Option DateV := none
  deriving DecidableEq, Repr

/-- The unified `RefundResponse` (src/types/payment.ts). -/
structure RefundResponse where
  success : Bool
  refundId : Option String := none
  amount : Option ℚ := none
  message : Option String := none
  status : Option TransactionStatus := none
  createdAt : Option DateV := none
  deriving DecidableEq, Repr

/-- The unified `WebhookValidationResult` (src/types/webhook.ts). -/
structure WebhookValidationResult where
  isValid : Bool
  reason : Option String := none
  deriving DecidableEq, Repr

/-- The `data` payload of a unified `WebhookEvent` (src/types/webhook.ts).
`amount` is `none` when `parseFloat` yielded `NaN`. -/
structure WebhookEventData where
  reference : String
  paymentId : Option String := none
  amount : Option ℚ := none
  currency : Option String := none
  status : TransactionStatus
  metadata : Json := Json.obj []
  gatewayReference : Option String := none
  customerEmail : Option String := none
  customerName : Option String := none
  customerPhone : Option String := none

/-- The unified `WebhookEvent` (src/types/webhook.ts). -/
structure WebhookEvent where
  type : WebhookEventType
  data : WebhookEventData
  createdAt : DateV
  gatewayName : String

/-! ### Paytech wire types (src/providers/paytech/types.ts) -/

/-- `customer_info` sub-object of Paytech payloads. -/
structure CustomerInfo where
  name : Option String := none
  email : Option String := none
  phone : Option String := none

/-- Paytech's payment request wire format (`PaytechPaymentRequest`). -/
structure PaytechPaymentRequest where
  item_name : String
  item_price : String
  currency : String
  ref_command : String
  command_name : String
  env : String
  ipn_url : Option String := none
  success_url : Option String := none
  cancel_url : Option String := none
  custom_field : Option String := none
  deriving DecidableEq, Repr

/-- Paytech's payment response (`PaytechPaymentResponse`): `success` is the
numeric 1/0 flag. -/
structure PaytechPaymentResponse where
  success : Int
  redirect_url : Option String := none
  token : Option String := none
  error : Option String := none

/-- Paytech's status response (`PaytechStatusResponse`). -/
structure PaytechStatusResponse where
  success : Int
  status : Option String := none
  error : Option String := none
  ref_command : Option String := none
  amount : Option String := none
  currency : Option String := none
  date : Option String := none
  transaction_id : Option String := none
  customer_info : Option CustomerInfo := none

/-- Paytech's refund request wire format (`PaytechRefundRequest`). -/
structure PaytechRefundRequest where
  token : String
  amount : Option ℚ := none
  reason : Option String := none

/-- Paytech's refund response (`PaytechRefundResponse`). -/
structure PaytechRefundResponse where
  success : Int
  refund_id : Option String := none
  amount : Option String := none
  error : Option String := none
  status : Option String := none
  date : Option String := none

/-- Paytech's webhook notification payload (`PaytechWebhookPayload`). -/
structure PaytechWebhookPayload where
  type : String
  token : String
  ref_command : String
  amount : String
  currency : String
  status : String
  date : String
  transaction_id : String
  custom_field : Option String := none
  customer_info : Option CustomerInfo := none

/-! ### Paytech constants (src/providers/paytech/constants.ts) -/

/-- `PAYTECH_CURRENCIES`. -/
def PAYTECH_CURRENCIES : List String := ["XOF", "EUR", "USD", "CAD", "GBP", "MAD"]

namespace PAYTECH_ENVIRONMENT

/-- `PAYTECH_ENVIRONMENT.TEST`. -/
def TEST : String := "test"

/-- `PAYTECH_ENVIRONMENT.PRODUCTION`. -/
def PRODUCTION : String := "prod"

end PAYTECH_ENVIRONMENT

namespace PAYTECH_WEBHOOK_EVENT

/-- `PAYTECH_WEBHOOK_EVENT.PAYMENT_SUCCESS`. -/
def PAYMENT_SUCCESS : String := "payment_success"

/-- `PAYTECH_WEBHOOK_EVENT.PAYMENT_FAILED`. -/
def PAYMENT_FAILED : String := "payment_failed"

/-- `PAYTECH_WEBHOOK_EVENT.PAYMENT_CANCELED`. -/
def PAYMENT_CANCELED : String := "payment_canceled"

/-- `PAYTECH_WEBHOOK_EVENT.REFUND_SUCCESS`. -/
def REFUND_SUCCESS : String := "refund_success"

/-- `PAYTECH_WEBHOOK_EVENT.REFUND_FAILED`. -/
def REFUND_FAILED : String := "refund_failed"

end PAYTECH_WEBHOOK_EVENT

/-! ### Paytech utils (src/providers/paytech/utils.ts) -/

/-- `isValidPaytechCurrency`: the uppercased code is in the fixed list. -/
def isValidPaytechCurrency (currency : String) : Bool :=
  PAYTECH_CURRENCIES.contains currency.toUpper

/-- `isValidPaytechAmount`: strictly positive. -/
def isValidPaytechAmount (amount : ℚ) : Bool :=
  decide (0 < amount)

/-- A webhook payload seen as a JavaScript dictionary (`payload: any`):
an insertion-ordered association list of string-valued fields. -/
def Payload := List (String × String)

/-- JavaScript property read `payload[key]`: first binding wins. -/
def jsGet (p : Payload) (k : String) : Option String :=
  (List.find? (fun kv => kv.1 == k) p).map Prod.snd

/-- `Object.keys`: insertion order, duplicates collapsed to the first. -/
def objKeys (p : Payload) : List String :=
  (List.map Prod.fst p).eraseDups

/-- The canonical string of `createWebhookSignature`: payload keys sorted
lexicographically, joined as `key=value` pairs with `&`. -/
def canonicalString (p : Payload) : String :=
  String.intercalate "&"
    (List.map (fun k => k ++ "=" ++ ((jsGet p k).getD ""))
      ((objKeys p).mergeSort (fun a b => a ≤ b)))

/-- `createWebhookSignature`: HMAC-SHA256 (hex) of the canonical string,
keyed by the secret. The HMAC primitive comes from node's `crypto` and is a
parameter `hmac : key → message → hex digest`. -/
def createWebhookSignature (hmac : String → String → String)
    (payload : Payload) (secret : String) : String :=
  hmac secret (canonicalString payload)

/-- `verifyWebhookSignature`: recompute and compare for equality. -/
def verifyWebhookSignature (hmac : String → String → String)
    (payload : Payload) (signature : String) (secret : String) : Bool :=
  createWebhookSignature hmac payload secret == signature

/-! ### Paytech mappers (src/providers/paytech/mappers.ts) -/

/-- `Number#toString` for the amounts this library serialises (the unified
amount is a smallest-currency-unit integer; non-integral values fall back to
a numerator/denominator rendering that never arises on valid requests). -/
def numToString (q : ℚ) : String :=
  if q.den = 1 then ⟨intChars q.num⟩
  else ⟨intChars q.num⟩ ++ "/" ++ ⟨natChars q.den⟩

/-- `mapToPaytechRequest` (mappers.ts lines 25–46). -/
def mapToPaytechRequest (request : PaymentRequest) (environment : UnifiedEnv) :
    PaytechPaymentRequest :=
  { item_name := request.description
    item_price := numToString request.amount
    currency := request.currency
    ref_command := request.reference
    command_name := request.description
    env :=
      if environment = UnifiedEnv.production then PAYTECH_ENVIRONMENT.PRODUCTION
      else PAYTECH_ENVIRONMENT.TEST
    ipn_url := request.webhookUrl
    success_url := request.returnUrl
    cancel_url := request.cancelUrl
    custom_field := request.metadata.map (fun m => jsonStringify (Json.obj m)) }

/-- `mapFromPaytechResponse` (mappers.ts lines 54–74). -/
def mapFromPaytechResponse (response : PaytechPaymentResponse) : PaymentResponse :=
  if response.success = 1 then
    { success := true
      redirectUrl := response.redirect_url
      token := response.token
      paymentId := response.token
      status := some TransactionStatus.PENDING
      createdAt := some DateV.now }
  else
    { success := false
      message := some (jsOrDefault response.error "Unknown error occurred")
      status := some TransactionStatus.FAILED
      createdAt := some DateV.now }

/-- `mapPaytechStatus` (mappers.ts lines 82–104): the `switch` on the
lowercased status string is a sequence of equality tests. -/
def mapPaytechStatus (statusResponse : PaytechStatusResponse) : TransactionStatus :=
  if statusResponse.success = 0 then TransactionStatus.FAILED
  else
    match statusResponse.status.map String.toLower with
    | some l =>
        if l = "completed" then TransactionStatus.COMPLETED
        else if l = "success" then TransactionStatus.COMPLETED
        else if l = "pending" then TransactionStatus.PENDING
        else if l = "waiting" then TransactionStatus.PENDING
        else if l = "canceled" then TransactionStatus.CANCELED
        else if l = "cancelled" then TransactionStatus.CANCELED
        else if l = "refunded" then TransactionStatus.REFUNDED
        else TransactionStatus.FAILED
    | none => TransactionStatus.FAILED

/-- `mapFromPaytechRefundResponse` (mappers.ts lines 113–135). The returned
amount is `requestedAmount || (response.amount ? parseFloat(response.amount)
: undefined)` with JavaScript truthiness on both operands. -/
def mapFromPaytechRefundResponse (response : PaytechRefundResponse)
    (requestedAmount : Option ℚ) : RefundResponse :=
  if response.success = 1 then
    { success := true
      refundId := response.refund_id
      amount :=
        if jsNumTruthy requestedAmount then requestedAmount
        else
          match response.amount with
          | some s => if s ≠ "" then jsParseFloat s else none
          | none => none
      status := some TransactionStatus.REFUNDED
      createdAt :=
        some (match response.date with
          | some d => if d ≠ "" then DateV.ofString d else DateV.now
          | none => DateV.now) }
  else
    { success := false
      message := some (jsOrDefault response.error "Refund failed")
      status := some TransactionStatus.FAILED
      createdAt := some DateV.now }

/-- `mapFromPaytechWebhook` (mappers.ts lines 143–221). -/
def mapFromPaytechWebhook (payload : PaytechWebhookPayload) : WebhookEvent :=
  let eventType : WebhookEventType :=
    if payload.type = PAYTECH_WEBHOOK_EVENT.PAYMENT_SUCCESS then
      WebhookEventType.PAYMENT_SUCCESS
    else if payload.type = PAYTECH_WEBHOOK_EVENT.PAYMENT_FAILED then
      WebhookEventType.PAYMENT_FAILED
    else if payload.type = PAYTECH_WEBHOOK_EVENT.PAYMENT_CANCELED then
      WebhookEventType.PAYMENT_FAILED
    else if payload.type = PAYTECH_WEBHOOK_EVENT.REFUND_SUCCESS then
      WebhookEventType.REFUND_SUCCESS
    else if payload.type = PAYTECH_WEBHOOK_EVENT.REFUND_FAILED then
      WebhookEventType.REFUND_FAILED
    else WebhookEventType.PAYMENT_SUCCESS
  let status : TransactionStatus :=
    let l := payload.status.toLower
    if l = "completed" then TransactionStatus.COMPLETED
    else if l = "success" then TransactionStatus.COMPLETED
    else if l = "pending" then TransactionStatus.PENDING
    else if l = "waiting" then TransactionStatus.PENDING
    else if l = "canceled" then TransactionStatus.CANCELED
    else if l = "cancelled" then TransactionStatus.CANCELED
    else if l = "refunded" then TransactionStatus.REFUNDED
    else TransactionStatus.FAILED
  let metadata : Json :=
    match payload.custom_field with
    | some s =>
        if s ≠ "" then
          match jsonParse s with
          | some v => v
          | none => Json.obj [("raw", Json.str s)]
        else Json.obj []
    | none => Json.obj []
  { type := eventType
    data :=
      { reference := payload.ref_command
        paymentId := some payload.token
        amount := jsParseFloat payload.amount
        currency := some payload.currency
        status := status
        gatewayReference := some payload.transaction_id
        metadata := metadata
        customerEmail := payload.customer_info.bind (fun ci => ci.email)
        customerName := payload.customer_info.bind (fun ci => ci.name)
        customerPhone := payload.customer_info.bind (fun ci => ci.phone) }
    createdAt := if payload.date ≠ "" then DateV.ofString payload.date else DateV.now
    gatewayName := "paytech" }

/-! ### Webhook validation (src/providers/paytech/webhooks.ts) -/

/-- The required-field list of `validatePaytechWebhook` (webhooks.ts line 27). -/
def paytechRequiredFields : List String := ["token", "ref_command", "type", "status"]

/-- `validatePaytechWebhook` (webhooks.ts lines 16–51). `payload = none`
models a missing (`null`/`undefined`) payload; field and header reads use
JavaScript truthiness exactly as `!payload[field]` and
`headers[..] || headers[..]` do. -/
def validatePaytechWebhook (hmac : String → String → String)
    (payload : Option Payload) (headers : Payload)
    (webhookSecret : Option String) : WebhookValidationResult :=
  match payload with
  | none => { isValid := false, reason := some "Empty payload" }
  | some p =>
    match List.find? (fun f => !(jsTruthy (jsGet p f))) paytechRequiredFields with
    | some f => { isValid := false, reason := some ("Missing required field: " ++ f) }
    | none =>
      if jsTruthy webhookSecret then
        let signature := jsOr (jsGet headers "x-paytech-signature")
                              (jsGet headers "X-Paytech-Signature")
        if !(jsTruthy signature) then
          { isValid := false, reason := some "Missing signature header" }
        else if !(verifyWebhookSignature hmac p (signature.getD "")
                    (webhookSecret.getD "")) then
          { isValid := false, reason := some "Invalid signature" }
        else { isValid := true }
      else { isValid := true }

/-- `processPaytechWebhook` (webhooks.ts lines 59–63). -/
def processPaytechWebhook (payload : PaytechWebhookPayload) : WebhookEvent :=
  mapFromPaytechWebhook payload

/-! ### The gateway adapter (src/providers/paytech/PaytechGateway.ts) -/

/-- The unified `GatewayConfig` (src/types/gateway.ts); `additionalConfig`
is modelled by the optional fields the adapter actually reads from it. -/
structure AdditionalConfig where
  timeout : Option ℚ := none
  merchantId : Option String := none
  defaultIpnUrl : Option String := none
  defaultSuccessUrl : Option String := none
  defaultCancelUrl : Option String := none

/-- The unified `GatewayConfig`. -/
structure GatewayConfig where
  apiKey : String
  apiSecret : String
  environment : UnifiedEnv
  webhookSecret : Option String := none
  additionalConfig : Option AdditionalConfig := none

/-- The adapter's own `PaytechConfig` state. -/
structure PaytechConfig where
  apiKey : String
  apiSecret : String
  environment : UnifiedEnv
  webhookSecret : Option String := none
  timeout : ℚ := 10000
  merchantId : Option String := none
  defaultIpnUrl : Option String := none
  defaultSuccessUrl : Option String := none
  defaultCancelUrl : Option String := none

/-- The adapter's state: its configuration and the `initialized` flag. -/
structure PaytechGateway where
  config : PaytechConfig
  initialized : Bool

/-- The constructor: empty credentials, test environment, not initialized. -/
def PaytechGateway.new : PaytechGateway :=
  { config :=
      { apiKey := ""
        apiSecret := ""
        environment := UnifiedEnv.test }
    initialized := false }

/-- `initialize` (PaytechGateway.ts lines 65–93): stores the configuration
(`timeout` with the `|| 10000` fallback), marks the adapter initialized and
returns `true`; nothing in the body can throw. -/
def PaytechGateway.initializeGateway (_g : PaytechGateway) (config : GatewayConfig) :
    PaytechGateway × Bool :=
  let newConfig : PaytechConfig :=
    { apiKey := config.apiKey
      apiSecret := config.apiSecret
      environment := config.environment
      webhookSecret := config.webhookSecret
      timeout :=
        (match config.additionalConfig.bind (fun a => a.timeout) with
          | some t => if t ≠ 0 then t else 10000
          | none => 10000)
      merchantId := config.additionalConfig.bind (fun a => a.merchantId)
      defaultIpnUrl := config.additionalConfig.bind (fun a => a.defaultIpnUrl)
      defaultSuccessUrl := config.additionalConfig.bind (fun a => a.defaultSuccessUrl)
      defaultCancelUrl := config.additionalConfig.bind (fun a => a.defaultCancelUrl) }
  ({ config := newConfig, initialized := true }, true)

/-- The outcome of one outbound HTTP call, supplied as an oracle: the parsed
response body, an Axios error that carries an HTTP error response (status,
`response.data.error`, `error.message`), or a transport-level failure. -/
inductive NetOutcome (α : Type) where
  | ok (data : α)
  | httpError (status : Nat) (errorField : Option String) (message : String)
  | netError (message : String)

/-- `createPayment` (PaytechGateway.ts lines 115–186). The thrown-error
channel is `Except.error`; the HTTP call is the oracle `net`, a function of
the wire request the adapter would send. -/
def PaytechGateway.createPayment (g : PaytechGateway) (request : PaymentRequest)
    (net : PaytechPaymentRequest → NetOutcome PaytechPaymentResponse) :
    Except String PaymentResponse :=
  if !g.initialized then
    Except.error "Gateway not initialized. Call initialize() first."
  else if request.reference = "" || request.description = "" then
    Except.error "Invalid payment request: missing required fields"
  else if !isValidPaytechAmount request.amount then
    Except.error "Invalid amount"
  else if !isValidPaytechCurrency request.currency then
    Except.error ("Unsupported currency: " ++ request.currency)
  else
    let ptReq0 := mapToPaytechRequest request g.config.environment
    let ptReq : PaytechPaymentRequest :=
      { ptReq0 with
        ipn_url :=
          if !(jsTruthy ptReq0.ipn_url) && jsTruthy g.config.defaultIpnUrl then
            g.config.defaultIpnUrl
          else ptReq0.ipn_url
        success_url :=
          if !(jsTruthy ptReq0.success_url) && jsTruthy g.config.defaultSuccessUrl then
            g.config.defaultSuccessUrl
          else ptReq0.success_url
        cancel_url :=
          if !(jsTruthy ptReq0.cancel_url) && jsTruthy g.config.defaultCancelUrl then
            g.config.defaultCancelUrl
          else ptReq0.cancel_url }
    match net ptReq with
    | NetOutcome.ok data => Except.ok (mapFromPaytechResponse data)
    | NetOutcome.httpError _ errorField message =>
        Except.ok
          { success := false
            message := some (jsOrDefault errorField
              (if message ≠ "" then message else "Payment request failed"))
            status := some TransactionStatus.FAILED
            createdAt := some DateV.now }
    | NetOutcome.netError message =>
        Except.ok
          { success := false
            message := some ("Payment request failed: " ++ message)
            status := some TransactionStatus.FAILED
            createdAt := some DateV.now }

/-- `verifyPayment` (PaytechGateway.ts lines 194–230): returns the mapped
status on success, returns `FAILED` on an HTTP 404 error response, and
throws `Failed to verify payment: …` on any other failure. -/
def PaytechGateway.verifyPayment (g : PaytechGateway) (paymentId : String)
    (net : NetOutcome PaytechStatusResponse) : Except String TransactionStatus :=
  if !g.initialized then
    Except.error "Gateway not initialized. Call initialize() first."
  else if paymentId = "" then
    Except.error "Payment ID is required"
  else
    match net with
    | NetOutcome.ok data => Except.ok (mapPaytechStatus data)
    | NetOutcome.httpError status _ message =>
        if status = 404 then Except.ok TransactionStatus.FAILED
        else Except.error ("Failed to verify payment: " ++ message)
    | NetOutcome.netError message =>
        Except.error ("Failed to verify payment: " ++ message)

/-- `refundPayment` (PaytechGateway.ts lines 239–297). The wire request gets
the amount only when `amount && amount > 0`; the raw optional amount is
passed to the refund mapper unchanged. -/
def PaytechGateway.refundPayment (g : PaytechGateway) (paymentId : String)
    (amount : Option ℚ)
    (net : PaytechRefundRequest → NetOutcome PaytechRefundResponse) :
    Except String RefundResponse :=
  if !g.initialized then
    Except.error "Gateway not initialized. Call initialize() first."
  else if paymentId = "" then
    Except.error "Payment ID is required"
  else
    let refundRequest : PaytechRefundRequest :=
      { token := paymentId
        amount :=
          match amount with
          | some a => if a ≠ 0 ∧ 0 < a then some a else none
          | none => none }
    match net refundRequest with
    | NetOutcome.ok data => Except.ok (mapFromPaytechRefundResponse data amount)
    | NetOutcome.httpError _ errorField message =>
        Except.ok
          { success := false
            message := some (jsOrDefault errorField
              (if message ≠ "" then message else "Refund request failed"))
            status := some TransactionStatus.FAILED
            createdAt := some DateV.now }
    | NetOutcome.netError message =>
        Except.ok
          { success := false
            message := some ("Refund request failed: " ++ message)
            status := some TransactionStatus.FAILED
            createdAt := some DateV.now }

/-- `validateWebhook` (PaytechGateway.ts lines 306–311): delegates to
`validatePaytechWebhook` with the configured webhook secret. -/
def PaytechGateway.validateWebhook (g : PaytechGateway)
    (hmac : String → String → String) (payload : Option Payload)
    (headers : Payload) : WebhookValidationResult :=
  validatePaytechWebhook hmac payload headers g.config.webhookSecret

/-! ### Helper lemmas on the JavaScript-truthiness combinators -/

/-- `List.find?` only depends on the pointwise behaviour of its predicate. -/
theorem find?_ext {α : Type} (p q : α → Bool) (l : List α)
    (h : ∀ a, p a = q a) : List.find? p l = List.find? q l := by
  induction l with
  | nil => rfl
  | cons a tl ih =>
      simp only [List.find?]
      rw [h a]
      cases q a <;> simp [ih]

/-- Truthiness of an optional string, phrased through `getD`. -/
theorem jsTruthy_getD (v : Option String) :
    jsTruthy v = decide ((v.getD "") ≠ "") := by
  cases v <;> simp [jsTruthy]

/-- The value `a || b` yields, phrased through `getD`. -/
theorem jsOr_getD (a b : Option String) :
    (jsOr a b).getD "" =
      if (a.getD "") ≠ "" then a.getD "" else b.getD "" := by
  cases a <;> cases b <;> simp [jsOr, jsTruthy] <;> split_ifs <;> simp_all

/-! ### Claim C2 -/

/-- Modelled from the spec (§4.4, claim C2): the claimed status table.
Case-insensitive match: {completed, success} → completed; {pending, waiting}
→ pending; {canceled, cancelled} → canceled; {refunded} → refunded; anything
else, including success flag 0, → failed. -/
def mapStatusClaimTable (statusResponse : PaytechStatusResponse) : TransactionStatus :=
  if statusResponse.success = 0 then TransactionStatus.FAILED
  else
    match statusResponse.status with
    | none => TransactionStatus.FAILED
    | some s =>
        let l := s.toLower
        if l = "completed" ∨ l = "success" then TransactionStatus.COMPLETED
        else if l = "pending" ∨ l = "waiting" then TransactionStatus.PENDING
        else if l = "canceled" ∨ l = "cancelled" then TransactionStatus.CANCELED
        else if l = "refunded" then TransactionStatus.REFUNDED
        else TransactionStatus.FAILED

/-- C2: `mapPaytechStatus` is total (it is a Lean function into the
`TransactionStatus` enumeration, so it can neither throw nor produce a
non-canonical value) and agrees with the claimed case-insensitive table on
every status response, with success flag 0 mapping to failed. -/
theorem mapPaytechStatus_eq_claim_table (r : PaytechStatusResponse) :
    mapPaytechStatus r = mapStatusClaimTable r := by
  unfold mapPaytechStatus mapStatusClaimTable
  cases r.status with
  | none => rfl
  | some s =>
      simp only [Option.map_some]
      by_cases h0 : r.success = 0
      · simp [h0]
      · simp only [if_neg h0]
        by_cases h1 : s.toLower = "completed" <;>
        by_cases h2 : s.toLower = "success" <;>
        by_cases h3 : s.toLower = "pending" <;>
        by_cases h4 : s.toLower = "waiting" <;>
        by_cases h5 : s.toLower = "canceled" <;>
        by_cases h6 : s.toLower = "cancelled" <;>
        by_cases h7 : s.toLower = "refunded" <;>
        simp [h1, h2, h3, h4, h5, h6, h7]

/-! ### Claim C3 -/

/-- C3: on an adapter whose `initialized` flag is unset (as after the bare
constructor, before any successful `initialize`), `createPayment`,
`verifyPayment` and `refundPayment` all throw the
"Gateway not initialized" error, whatever the request, payment id, amount
and network oracle — in particular before any request validation and before
any network call can influence the result. -/
theorem uninitialized_gateway_rejects (g : PaytechGateway)
    (h : g.initialized = false) :
    (∀ request net, g.createPayment request net =
        Except.error "Gateway not initialized. Call initialize() first.") ∧
    (∀ paymentId net, g.verifyPayment paymentId net =
        Except.error "Gateway not initialized. Call initialize() first.") ∧
    (∀ paymentId amount net, g.refundPayment paymentId amount net =
        Except.error "Gateway not initialized. Call initialize() first.") := by
  refine ⟨?_, ?_, ?_⟩ <;> intros <;>
    simp [PaytechGateway.createPayment, PaytechGateway.verifyPayment,
      PaytechGateway.refundPayment, h]

/-- C3 witness: the freshly constructed adapter is uninitialized and its
`createPayment` throws, even on a fully valid request with a live network. -/
theorem uninitialized_gateway_rejects_witness :
    PaytechGateway.new.initialized = false ∧
    PaytechGateway.new.createPayment
        { amount := 1000, currency := "XOF", reference := "REF-1",
          description := "Test payment" }
        (fun _ => NetOutcome.ok { success := 1, token := some "tok" }) =
      Except.error "Gateway not initialized. Call initialize() first." :=
  ⟨rfl, (uninitialized_gateway_rejects PaytechGateway.new rfl).1 _ _⟩

/-! ### Claim C4 -/

/-- C4: on an initialized adapter and a non-empty payment id,
`verifyPayment` throws (`Failed to verify payment: …`) when the HTTP call
fails at the transport level, but returns `TransactionStatus.FAILED`
without throwing when the provider answers with an HTTP 404 error. -/
theorem verifyPayment_error_channels (g : PaytechGateway) (paymentId : String)
    (hg : g.initialized = true) (hp : paymentId ≠ "") :
    (∀ message, g.verifyPayment paymentId (NetOutcome.netError message) =
        Except.error ("Failed to verify payment: " ++ message)) ∧
    (∀ errorField message,
        g.verifyPayment paymentId (NetOutcome.httpError 404 errorField message) =
          Except.ok TransactionStatus.FAILED) := by
  constructor <;> intros <;> simp [PaytechGateway.verifyPayment, hg, hp]

/-- A sample configuration for witnesses that need an initialized adapter. -/
def sampleConfig : GatewayConfig :=
  { apiKey := "key", apiSecret := "secret", environment := UnifiedEnv.test }

/-- The adapter after a successful `initialize`. -/
def initializedSample : PaytechGateway :=
  (PaytechGateway.new.initializeGateway sampleConfig).1

/-- C4 witness: on the initialized sample adapter, a transport failure
throws while a 404 response yields `FAILED`. -/
theorem verifyPayment_error_channels_witness :
    initializedSample.initialized = true ∧
    initializedSample.verifyPayment "tok1" (NetOutcome.netError "socket hang up") =
      Except.error ("Failed to verify payment: " ++ "socket hang up") ∧
    initializedSample.verifyPayment "tok1" (NetOutcome.httpError 404 none "Request failed") =
      Except.ok TransactionStatus.FAILED :=
  ⟨rfl,
    (verifyPayment_error_channels initializedSample "tok1" rfl (by decide)).1 _,
    (verifyPayment_error_channels initializedSample "tok1" rfl (by decide)).2 _ _⟩

/-! ### Claim C5 -/

/-- A successful provider refund response echoing amount "5000". -/
def sampleRefundResponse : PaytechRefundResponse :=
  { success := 1, refund_id := some "ref_1", amount := some "5000" }

/-- C5 counterexample: with requested amount 0 — an explicitly given
requested amount — the mapper does not return the requested amount: the
JavaScript `requestedAmount || …` treats 0 as falsy and falls back to the
parsed provider-reported amount 5000. -/
theorem refund_requested_amount_zero_counterexample :
    (mapFromPaytechRefundResponse sampleRefundResponse (some 0)).amount ≠ some 0 ∧
    (mapFromPaytechRefundResponse sampleRefundResponse (some 0)).amount = some 5000 := by
  constructor <;>
    simp [mapFromPaytechRefundResponse, sampleRefundResponse, jsNumTruthy,
      jsParseFloat, digsVal, List.dropWhile, List.takeWhile]

/-- C5 as amended: for success flag 1, a *non-zero* explicitly given
requested amount takes precedence over the provider-reported amount string;
with no requested amount the provider-reported amount is parsed as a number
(when present and non-empty); the status is fixed to refunded. -/
theorem mapFromPaytechRefundResponse_amended (response : PaytechRefundResponse)
    (q : ℚ) (hs : response.success = 1) (hq : q ≠ 0) :
    ((mapFromPaytechRefundResponse response (some q)).success = true ∧
     (mapFromPaytechRefundResponse response (some q)).amount = some q ∧
     (mapFromPaytechRefundResponse response (some q)).refundId = response.refund_id ∧
     (mapFromPaytechRefundResponse response (some q)).status =
       some TransactionStatus.REFUNDED) ∧
    ((mapFromPaytechRefundResponse response none).amount =
      (match response.amount with
        | some s => if s ≠ "" then jsParseFloat s else none
        | none => none) ∧
     (mapFromPaytechRefundResponse response none).status =
       some TransactionStatus.REFUNDED) := by
  refine ⟨⟨?_, ?_, ?_, ?_⟩, ⟨?_, ?_⟩⟩ <;>
    simp [mapFromPaytechRefundResponse, hs, jsNumTruthy, hq]

/-- C5 witness: the spec's own test vector — requested amount 2000 against
provider-reported "5000" yields 2000. -/
theorem mapFromPaytechRefundResponse_amended_witness :
    (mapFromPaytechRefundResponse sampleRefundResponse (some 2000)).amount = some 2000 :=
  ((mapFromPaytechRefundResponse_amended sampleRefundResponse 2000 rfl
    (by norm_num)).1).2.1

/-! ### Claim C6 -/

/-- A payment request whose reference and description differ. -/
def c6Request : PaymentRequest :=
  { amount := 1000, currency := "XOF", reference := "REF-1",
    description := "Premium subscription" }

/-- C6 counterexample: the mapper does not place the reference into both
order-reference and description-of-order fields: `command_name` receives
the description, not the reference. -/
theorem mapToPaytechRequest_duplication_counterexample :
    ¬ ((mapToPaytechRequest c6Request UnifiedEnv.test).ref_command =
          c6Request.reference ∧
       (mapToPaytechRequest c6Request UnifiedEnv.test).command_name =
          c6Request.reference) := by
  simp [mapToPaytechRequest, c6Request]

/-- C6 as amended: the reference maps to the order-reference field
(`ref_command`) only, while the description is the field that is
duplicated — into both the item-name field and the description-of-order
field (`command_name`). -/
theorem mapToPaytechRequest_field_mapping (request : PaymentRequest)
    (environment : UnifiedEnv) :
    (mapToPaytechRequest request environment).ref_command = request.reference ∧
    (mapToPaytechRequest request environment).item_name = request.description ∧
    (mapToPaytechRequest request environment).command_name = request.description :=
  ⟨rfl, rfl, rfl⟩

/-! ### Claim C7 -/

/-- C7: a webhook payload whose event-type string is none of the five
provider event types in the lookup table is assigned the unified
payment-success event type by the default arm. -/
theorem mapFromPaytechWebhook_unknown_type_defaults (payload : PaytechWebhookPayload)
    (h : payload.type ∉ [PAYTECH_WEBHOOK_EVENT.PAYMENT_SUCCESS,
        PAYTECH_WEBHOOK_EVENT.PAYMENT_FAILED,
        PAYTECH_WEBHOOK_EVENT.PAYMENT_CANCELED,
        PAYTECH_WEBHOOK_EVENT.REFUND_SUCCESS,
        PAYTECH_WEBHOOK_EVENT.REFUND_FAILED]) :
    (mapFromPaytechWebhook payload).type = WebhookEventType.PAYMENT_SUCCESS := by
  simp only [List.mem_cons, List.not_mem_nil, or_false, not_or] at h
  obtain ⟨h1, h2, h3, h4, h5⟩ := h
  simp [mapFromPaytechWebhook, h1, h2, h3, h4, h5]

/-- A webhook payload with an unmapped event-type string. -/
def unknownTypePayload : PaytechWebhookPayload :=
  { type := "subscription_created", token := "tok", ref_command := "REF-1",
    amount := "1000", currency := "XOF", status := "completed",
    date := "2024-01-01", transaction_id := "tx1" }

/-- C7 witness: the unmapped event type "subscription_created" defaults to
payment success. -/
theorem mapFromPaytechWebhook_unknown_type_defaults_witness :
    (mapFromPaytechWebhook unknownTypePayload).type =
      WebhookEventType.PAYMENT_SUCCESS :=
  mapFromPaytechWebhook_unknown_type_defaults unknownTypePayload (by decide)

/-! ### Claim C10 -/

/-- C10: a webhook payload whose event-type string is exactly
"payment_canceled" is assigned the unified payment-failed event type — not
a distinct canceled event and not the payment-success default — so canceled
payments are indistinguishable from failed ones at the event-type level. -/
theorem mapFromPaytechWebhook_canceled_is_failed (payload : PaytechWebhookPayload)
    (h : payload.type = "payment_canceled") :
    (mapFromPaytechWebhook payload).type = WebhookEventType.PAYMENT_FAILED := by
  simp [mapFromPaytechWebhook, h, PAYTECH_WEBHOOK_EVENT.PAYMENT_SUCCESS,
    PAYTECH_WEBHOOK_EVENT.PAYMENT_FAILED, PAYTECH_WEBHOOK_EVENT.PAYMENT_CANCELED]

/-- A canceled-payment webhook payload. -/
def canceledPayload : PaytechWebhookPayload :=
  { type := "payment_canceled", token := "tok", ref_command := "REF-1",
    amount := "1000", currency := "XOF", status := "canceled",
    date := "2024-01-01", transaction_id := "tx1" }

/-- C10 witness: the canceled payload maps to the payment-failed event. -/
theorem mapFromPaytechWebhook_canceled_is_failed_witness :
    (mapFromPaytechWebhook canceledPayload).type = WebhookEventType.PAYMENT_FAILED :=
  mapFromPaytechWebhook_canceled_is_failed canceledPayload rfl

/-! ### Claim C1 -/

/-- Modelled from the spec (claim C1 wording, §4.6): the claimed decision
procedure, read literally — a required field is rejected only when *absent*
from the payload, the signature header only when *neither casing variant is
present*, and a secret counts as configured whenever one was supplied. -/
def validateWebhookClaimC1 (hmac : String → String → String)
    (payload : Option Payload) (headers : Payload)
    (webhookSecret : Option String) : WebhookValidationResult :=
  match payload with
  | none => { isValid := false, reason := some "Empty payload" }
  | some p =>
    match List.find? (fun f => (jsGet p f).isNone) paytechRequiredFields with
    | some f => { isValid := false, reason := some ("Missing required field: " ++ f) }
    | none =>
      match webhookSecret with
      | none => { isValid := true }
      | some secret =>
        match jsGet headers "x-paytech-signature" with
        | some sig =>
            if sig ≠ createWebhookSignature hmac p secret then
              { isValid := false, reason := some "Invalid signature" }
            else { isValid := true }
        | none =>
            match jsGet headers "X-Paytech-Signature" with
            | some sig =>
                if sig ≠ createWebhookSignature hmac p secret then
                  { isValid := false, reason := some "Invalid signature" }
                else { isValid := true }
            | none => { isValid := false, reason := some "Missing signature header" }

/-- A stand-in HMAC implementation for closed statements in which no
signature is ever computed (no secret is configured). -/
def hmacStub : String → String → String := fun _ _ => ""

/-- A webhook payload whose `token` field is present but empty. -/
def emptyTokenPayload : Payload :=
  [("token", ""), ("ref_command", "REF-1"), ("type", "payment_success"),
   ("status", "completed")]

/-- C1 counterexample: on a payload whose `token` field is present but
empty (and no configured secret), the validator rejects with
"Missing required field: token" — the JavaScript `!payload[field]` check
fires on empty values — while the claimed procedure, in which only an
*absent* field is rejected, accepts. -/
theorem validatePaytechWebhook_presence_counterexample :
    validatePaytechWebhook hmacStub (some emptyTokenPayload) [] none =
      { isValid := false, reason := some "Missing required field: token" } ∧
    validateWebhookClaimC1 hmacStub (some emptyTokenPayload) [] none =
      { isValid := true } := by
  constructor <;> rfl

/-- Modelled from claim C1 as amended: the same decision procedure with
every presence check read through JavaScript truthiness — a required field
is missing when absent *or empty*, the signature header when both casing
variants are absent *or empty* (the lowercase variant is preferred when
non-empty), and a secret is configured when supplied *and non-empty*. -/
def validateWebhookClaimC1Amended (hmac : String → String → String)
    (payload : Option Payload) (headers : Payload)
    (webhookSecret : Option String) : WebhookValidationResult :=
  match payload with
  | none => { isValid := false, reason := some "Empty payload" }
  | some p =>
    match List.find? (fun f => (jsGet p f).getD "" = "") paytechRequiredFields with
    | some f => { isValid := false, reason := some ("Missing required field: " ++ f) }
    | none =>
      if webhookSecret.getD "" = "" then { isValid := true }
      else
        let sig : String :=
          if (jsGet headers "x-paytech-signature").getD "" ≠ "" then
            (jsGet headers "x-paytech-signature").getD ""
          else (jsGet headers "X-Paytech-Signature").getD ""
        if sig = "" then
          { isValid := false, reason := some "Missing signature header" }
        else if sig ≠ createWebhookSignature hmac p (webhookSecret.getD "") then
          { isValid := false, reason := some "Invalid signature" }
        else { isValid := true }

/-- C1 as amended: for every HMAC primitive, payload, headers map and
optional secret, `validatePaytechWebhook` returns exactly the result of the
amended decision procedure (presence checks read through JavaScript
truthiness, in the claimed order: empty payload, then the required-field
set in order, then the signature header, then the signature comparison
against the HMAC of the sorted `key=value` canonical string, else valid). -/
theorem validatePaytechWebhook_eq_amended (hmac : String → String → String)
    (payload : Option Payload) (headers : Payload)
    (webhookSecret : Option String) :
    validatePaytechWebhook hmac payload headers webhookSecret =
      validateWebhookClaimC1Amended hmac payload headers webhookSecret := by
  cases payload with
  | none => rfl
  | some p =>
      simp only [validatePaytechWebhook, validateWebhookClaimC1Amended]
      rw [find?_ext (fun f => !(jsTruthy (jsGet p f)))
            (fun f => decide ((jsGet p f).getD "" = "")) paytechRequiredFields
            (fun f => by cases h : jsGet p f <;> simp [jsTruthy, h])]
      cases List.find? (fun f => decide ((jsGet p f).getD "" = "")) paytechRequiredFields with
      | some f => rfl
      | none =>
          cases webhookSecret with
          | none => rfl
          | some w =>
              by_cases hw : w = ""
              · subst hw; rfl
              · cases hx : jsGet headers "x-paytech-signature" with
                | none =>
                    cases hX : jsGet headers "X-Paytech-Signature" with
                    | none => simp [jsTruthy, jsOr, hw, hx, hX]
                    | some X =>
                        by_cases hXe : X = ""
                        · simp [jsTruthy, jsOr, hw, hx, hX, hXe]
                        · by_cases hc : createWebhookSignature hmac p w = X
                          · simp [jsTruthy, jsOr, verifyWebhookSignature, hw, hx, hX,
                              hXe, hc]
                          · have hc2 : ¬X = createWebhookSignature hmac p w :=
                              fun h => hc h.symm
                            simp [jsTruthy, jsOr, verifyWebhookSignature, hw, hx, hX,
                              hXe, hc, hc2]
                | some x =>
                    by_cases hxe : x = ""
                    · cases hX : jsGet headers "X-Paytech-Signature" with
                      | none => simp [jsTruthy, jsOr, hw, hx, hxe, hX]
                      | some X =>
                          by_cases hXe : X = ""
                          · simp [jsTruthy, jsOr, hw, hx, hxe, hX, hXe]
                          · by_cases hc : createWebhookSignature hmac p w = X
                            · simp [jsTruthy, jsOr, verifyWebhookSignature, hw, hx,
                                hxe, hX, hXe, hc]
                            · have hc2 : ¬X = createWebhookSignature hmac p w :=
                                fun h => hc h.symm
                              simp [jsTruthy, jsOr, verifyWebhookSignature, hw, hx,
                                hxe, hX, hXe, hc, hc2]
                    · by_cases hc : createWebhookSignature hmac p w = x
                      · simp [jsTruthy, jsOr, verifyWebhookSignature, hw, hx, hxe, hc]
                      · have hc2 : ¬x = createWebhookSignature hmac p w :=
                          fun h => hc h.symm
                        simp [jsTruthy, jsOr, verifyWebhookSignature, hw, hx, hxe,
                          hc, hc2]

/-! ### Claim C8 -/

/-- A webhook payload whose `custom_field` is present but empty. -/
def emptyCustomFieldPayload : PaytechWebhookPayload :=
  { type := "payment_success", token := "tok", ref_command := "REF-1",
    amount := "1000", currency := "XOF", status := "completed",
    date := "2024-01-01", transaction_id := "tx1", custom_field := some "" }

/-- C8 counterexample: a present-but-empty `custom_field` does not parse as
JSON, yet the metadata is the empty object rather than the claimed
`{ raw: "" }` wrapper — the JavaScript `if (payload.custom_field)` guard
treats the empty string as absent. -/
theorem webhook_metadata_empty_custom_field_counterexample :
    emptyCustomFieldPayload.custom_field = some "" ∧
    jsonParse "" = none ∧
    (mapFromPaytechWebhook emptyCustomFieldPayload).data.metadata = Json.obj [] ∧
    (mapFromPaytechWebhook emptyCustomFieldPayload).data.metadata ≠
      Json.obj [("raw", Json.str "")] := by
  refine ⟨rfl, rfl, ?_, ?_⟩ <;> simp [mapFromPaytechWebhook, emptyCustomFieldPayload]

/-- C8 as amended: for every webhook payload with a present *non-empty*
custom field, the mapping never throws on account of the metadata: if the
field parses as JSON the parsed value becomes the event metadata, and on
parse failure the metadata is the `{ raw: … }` wrapper instead of an error. -/
theorem mapFromPaytechWebhook_metadata_amended (payload : PaytechWebhookPayload)
    (s : String) (hp : payload.custom_field = some s) (hs : s ≠ "") :
    (mapFromPaytechWebhook payload).data.metadata =
      (match jsonParse s with
        | some v => v
        | none => Json.obj [("raw", Json.str s)]) := by
  simp only [mapFromPaytechWebhook, hp, hs]
  split <;> simp_all

/-- A webhook payload carrying malformed metadata. -/
def malformedMetadataPayload : PaytechWebhookPayload :=
  { type := "payment_success", token := "tok", ref_command := "REF-1",
    amount := "1000", currency := "XOF", status := "completed",
    date := "2024-01-01", transaction_id := "tx1",
    custom_field := some "not json" }

/-- C8 witness: the malformed custom field "not json" is wrapped as
`{ raw: "not json" }` instead of failing the mapping. -/
theorem mapFromPaytechWebhook_metadata_amended_witness :
    (mapFromPaytechWebhook malformedMetadataPayload).data.metadata =
      Json.obj [("raw", Json.str "not json")] :=
  mapFromPaytechWebhook_metadata_amended malformedMetadataPayload "not json" rfl
    (by decide)

/-! ### Round-trip of the JSON codec model (for claim C9)

Structure: digit-level inverses first (`digsVal_natChars`,
`readNum_intChars`), then the string-escape inverse (`readStr_escRun`),
then head-character facts that disambiguate the parser's branches, and
finally the mutual induction `rt_val`/`rt_elems`/`rt_fields` with fuel
bounded by the rendered length. -/

/-- `digCh` produces digit characters. -/
theorem digCh_isDigit (d : Nat) (h : d < 10) : (digCh d).isDigit = true := by
  interval_cases d <;> decide

/-- `digCh` is inverted by the character-value map `c.toNat - 48`. -/
theorem digCh_val (d : Nat) (h : d < 10) : (digCh d).toNat - 48 = d := by
  interval_cases d <;> decide

/-- The accumulator of `natCharsAux` is simply appended. -/
theorem natCharsAux_append (n : Nat) :
    ∀ acc, natCharsAux n acc = natCharsAux n [] ++ acc := by
  induction n using Nat.strong_induction_on with
  | _ n ih =>
      intro acc
      match n with
      | 0 => simp [natCharsAux]
      | m + 1 =>
          have hlt : (m + 1) / 10 < m + 1 := Nat.div_lt_self (Nat.succ_pos m) (by norm_num)
          rw [natCharsAux, natCharsAux]
          rw [ih ((m + 1) / 10) hlt (digCh ((m + 1) % 10) :: acc),
            ih ((m + 1) / 10) hlt [digCh ((m + 1) % 10)]]
          simp

/-- Every character `natCharsAux` produces is a digit. -/
theorem natCharsAux_digits (n : Nat) : ∀ c ∈ natCharsAux n [], c.isDigit = true := by
  induction n using Nat.strong_induction_on with
  | _ n ih =>
      match n with
      | 0 => intro c hc; simp [natCharsAux] at hc
      | m + 1 =>
          intro c hc
          have hlt : (m + 1) / 10 < m + 1 := Nat.div_lt_self (Nat.succ_pos m) (by norm_num)
          rw [natCharsAux, natCharsAux_append] at hc
          rcases List.mem_append.mp hc with h | h
          · exact ih _ hlt c h
          · simp only [List.mem_singleton] at h
            subst h
            exact digCh_isDigit _ (Nat.mod_lt _ (by norm_num))

/-- `natCharsAux` of a positive number is non-empty. -/
theorem natCharsAux_ne_nil (n : Nat) (h : 0 < n) : natCharsAux n [] ≠ [] := by
  match n with
  | m + 1 =>
      rw [natCharsAux, natCharsAux_append]
      simp

/-- Folding the digit step over `natCharsAux n []` recovers `n` (with the
accumulator scaled by the digit count). -/
theorem foldl_natCharsAux (n : Nat) : ∀ a : Nat,
    List.foldl (fun a c => a * 10 + (c.toNat - 48)) a (natCharsAux n []) =
      a * 10 ^ (natCharsAux n []).length + n := by
  induction n using Nat.strong_induction_on with
  | _ n ih =>
      intro a
      match n with
      | 0 => simp [natCharsAux]
      | m + 1 =>
          have hlt : (m + 1) / 10 < m + 1 := Nat.div_lt_self (Nat.succ_pos m) (by norm_num)
          conv_lhs => rw [natCharsAux, natCharsAux_append]
          rw [List.foldl_append, ih _ hlt a]
          simp only [List.foldl]
          rw [digCh_val _ (Nat.mod_lt _ (by norm_num))]
          conv_rhs => rw [natCharsAux, natCharsAux_append]
          rw [List.length_append]
          simp only [List.length_singleton]
          calc (a * 10 ^ (natCharsAux ((m + 1) / 10) []).length + (m + 1) / 10) * 10
                + (m + 1) % 10
              = a * (10 ^ (natCharsAux ((m + 1) / 10) []).length * 10)
                + (10 * ((m + 1) / 10) + (m + 1) % 10) := by ring
            _ = a * 10 ^ ((natCharsAux ((m + 1) / 10) []).length + 1) + (m + 1) := by
                rw [Nat.div_add_mod, pow_succ]

/-- The digit run of `n` evaluates back to `n`. -/
theorem digsVal_natChars (n : Nat) : digsVal (natChars n) = n := by
  unfold natChars digsVal
  by_cases h : n = 0
  · subst h; simp
  · simp only [h, if_false]
    simpa using foldl_natCharsAux n 0

/-- Every character of `natChars` is a digit. -/
theorem natChars_digits (n : Nat) : ∀ c ∈ natChars n, c.isDigit = true := by
  unfold natChars
  by_cases h : n = 0
  · subst h; intro c hc; simp at hc; subst hc; decide
  · simp only [h, if_false]
    exact natCharsAux_digits n

/-- `natChars` is never empty. -/
theorem natChars_ne_nil (n : Nat) : natChars n ≠ [] := by
  unfold natChars
  by_cases h : n = 0
  · subst h; simp
  · simp only [h, if_false]
    exact natCharsAux_ne_nil n (Nat.pos_of_ne_zero h)

/-- A residual input that cannot extend a digit run. -/
def restOk (rest : List Char) : Prop :=
  ∀ c, rest.head? = some c → c.isDigit = false

/-- `takeWhile`/`dropWhile` split an all-true run followed by a stopper. -/
theorem takeWhile_dropWhile_append {α : Type} (p : α → Bool) :
    ∀ (l rest : List α), (∀ c ∈ l, p c = true) →
      (∀ c, rest.head? = some c → p c = false) →
      (l ++ rest).takeWhile p = l ∧ (l ++ rest).dropWhile p = rest := by
  intro l
  induction l with
  | nil =>
      intro rest _ hr
      cases rest with
      | nil => simp
      | cons a t =>
          have := hr a rfl
          simp [List.takeWhile, List.dropWhile, this]
  | cons a t ih =>
      intro rest hl hr
      have ha : p a = true := hl a (by simp)
      have iht := ih rest (fun c hc => hl c (by simp [hc])) hr
      simp [List.takeWhile, List.dropWhile, ha, iht.1, iht.2]

/-- A digit character is none of the parser's structural start characters. -/
theorem digit_ne_marks (c : Char) (h : c.isDigit = true) :
    c ≠ ']' ∧ c ≠ '}' ∧ c ≠ 'n' ∧ c ≠ 't' ∧ c ≠ 'f' ∧ c ≠ '"' ∧ c ≠ '[' ∧
      c ≠ '{' ∧ c ≠ '-' := by
  refine ⟨?_, ?_, ?_, ?_, ?_, ?_, ?_, ?_, ?_⟩ <;>
    (intro h0; subst h0; exact absurd h (by decide))

/-- `readNum` inverts `intChars` whenever no digit follows. -/
theorem readNum_intChars (n : Int) (rest : List Char) (hr : restOk rest) :
    readNum (intChars n ++ rest) = some (n, rest) := by
  unfold intChars
  by_cases hn : n < 0
  · simp only [if_pos hn, List.cons_append]
    have hsplit := takeWhile_dropWhile_append Char.isDigit (natChars n.natAbs) rest
      (natChars_digits _) hr
    have hne : (natChars n.natAbs).isEmpty = false := by
      simp [List.isEmpty_iff, natChars_ne_nil]
    simp only [readNum, hsplit.1, hsplit.2, hne, Bool.false_eq_true, if_false]
    rw [digsVal_natChars]
    have hval : -((n.natAbs : ℤ)) = n := by omega
    rw [hval]
  · simp only [if_neg hn]
    obtain ⟨c, t, hct⟩ := List.exists_cons_of_ne_nil (natChars_ne_nil n.toNat)
    have hsplit := takeWhile_dropWhile_append Char.isDigit (natChars n.toNat) rest
      (natChars_digits _) hr
    have hcd : c.isDigit = true := by
      apply natChars_digits n.toNat; rw [hct]; simp
    have hnotminus : c ≠ '-' := (digit_ne_marks c hcd).2.2.2.2.2.2.2.2
    rw [hct] at hsplit
    rw [hct, List.cons_append]
    unfold readNum
    split
    · rename_i r heq
      rw [List.cons.injEq] at heq
      exact absurd heq.1 hnotminus
    · simp only [← List.cons_append, hsplit.1, hsplit.2, List.isEmpty_cons,
        Bool.false_eq_true, if_false]
      rw [← hct, digsVal_natChars]
      have hval : ((n.toNat : ℤ)) = n := by omega
      rw [hval]

/-- `readStr` inverts `escRun` up to the closing quote. -/
theorem readStr_escRun : ∀ (s rest : List Char),
    readStr (escRun s ++ '"' :: rest) = some (s, rest) := by
  intro s
  induction s with
  | nil => intro rest; rfl
  | cons c t ih =>
      intro rest
      by_cases h : c = '"' ∨ c = '\\'
      · have hesc : escCh c = ['\\', c] := by
          rcases h with h | h <;> subst h <;> rfl
        rw [escRun, hesc]
        simp [readStr, ih]
      · rcases not_or.mp h with ⟨h1, h2⟩
        have hesc : escCh c = [c] := by simp [escCh, h1, h2]
        rw [escRun, hesc]
        simp [readStr, h1, h2, ih]

/-- Every rendered value starts with a character that closes nothing. -/
theorem writeJson_head (v : Json) :
    ∃ c t, writeJson v = c :: t ∧ c ≠ ']' ∧ c ≠ '}' := by
  cases v with
  | null =>
      exact ⟨'n', ['u', 'l', 'l'], by simp [writeJson, litNull], by decide, by decide⟩
  | bool b =>
      cases b with
      | true =>
          exact ⟨'t', ['r', 'u', 'e'], by simp [writeJson, litTrue], by decide, by decide⟩
      | false =>
          exact ⟨'f', ['a', 'l', 's', 'e'], by simp [writeJson, litFalse], by decide,
            by decide⟩
  | str s =>
      exact ⟨'"', escRun s.data ++ ['"'], by simp [writeJson], by decide, by decide⟩
  | arr es =>
      exact ⟨'[', writeElems es ++ [']'], by simp [writeJson], by decide, by decide⟩
  | obj fs =>
      exact ⟨'{', writeFields fs ++ ['}'], by simp [writeJson], by decide, by decide⟩
  | num n =>
      by_cases hn : n < 0
      · exact ⟨'-', natChars n.natAbs, by simp [writeJson, intChars, hn], by decide,
          by decide⟩
      · obtain ⟨c, t, hct⟩ := List.exists_cons_of_ne_nil (natChars_ne_nil n.toNat)
        have hcd : c.isDigit = true := by
          apply natChars_digits n.toNat; rw [hct]; simp
        obtain ⟨h1, h2, -, -, -, -, -, -, -⟩ := digit_ne_marks c hcd
        exact ⟨c, t, by simp [writeJson, intChars, hn, hct], h1, h2⟩

/-- A rendered non-empty element list starts like its first value. -/
theorem writeElems_cons_head (e : Json) (es : List Json) :
    ∃ c t, writeElems (e :: es) = c :: t ∧ c ≠ ']' ∧ c ≠ '}' := by
  obtain ⟨c, t, hct, h1, h2⟩ := writeJson_head e
  cases es with
  | nil => exact ⟨c, t, by simp [writeElems, hct], h1, h2⟩
  | cons x xs =>
      exact ⟨c, t ++ ',' :: writeElems (x :: xs), by simp [writeElems, hct], h1, h2⟩

/-- A rendered non-empty member list starts with the key's quote. -/
theorem writeFields_cons_head (k : String) (v : Json) (fs : List (String × Json)) :
    ∃ t, writeFields ((k, v) :: fs) = '"' :: t := by
  cases fs with
  | nil => exact ⟨escRun k.data ++ '"' :: ':' :: writeJson v, by simp [writeFields]⟩
  | cons g gs =>
      exact ⟨escRun k.data ++ '"' :: ':' :: writeJson v
          ++ ',' :: writeFields (g :: gs), by simp [writeFields]⟩

/-- The parser's number branch: a head that is a minus sign or digit reduces
`readVal` to `readNum`. -/
theorem readVal_step_num (f : Nat) (c : Char) (t : List Char)
    (hguard : (c = '-' || c.isDigit) = true)
    (hn : c ≠ 'n') (ht : c ≠ 't') (hf : c ≠ 'f') (hq : c ≠ '"')
    (hlb : c ≠ '[') (hlc : c ≠ '{') :
    readVal (f + 1) (c :: t) =
      (match readNum (c :: t) with
        | some (n, r1) => some (Json.num n, r1)
        | none => none) := by
  simp [readVal, hn, ht, hf, hq, hlb, hlc, hguard]

/-- The parser's array branch on a non-empty element list reduces to
`readElems` (the rendered list cannot begin with `]`). -/
theorem readVal_step_arr (f : Nat) (e : Json) (es : List Json) (rest : List Char) :
    readVal (f + 1) ('[' :: (writeElems (e :: es) ++ ']' :: rest)) =
      (match readElems f (writeElems (e :: es) ++ ']' :: rest) with
        | some (vs, r1) => some (Json.arr vs, r1)
        | none => none) := by
  obtain ⟨c, t, hct, hc1, hc2⟩ := writeElems_cons_head e es
  rw [hct, List.cons_append]
  simp [readVal, hc1]

/-- The parser's object branch on a non-empty member list reduces to
`readFields` (the rendered list begins with a quote, never `}`). -/
theorem readVal_step_obj (f : Nat) (k : String) (v : Json)
    (fs : List (String × Json)) (rest : List Char) :
    readVal (f + 1) ('{' :: (writeFields ((k, v) :: fs) ++ '}' :: rest)) =
      (match readFields f (writeFields ((k, v) :: fs) ++ '}' :: rest) with
        | some (fs1, r1) => some (Json.obj fs1, r1)
        | none => none) := by
  obtain ⟨t, hct⟩ := writeFields_cons_head k v fs
  rw [hct, List.cons_append]
  simp [readVal]

mutual

/-- Parsing a rendered value consumes exactly that value (fuel above the
rendered length, residue that cannot extend a digit run). -/
theorem rt_val : ∀ (v : Json) (fuel : Nat) (rest : List Char),
    (writeJson v).length < fuel → restOk rest →
    readVal fuel (writeJson v ++ rest) = some (v, rest)
  | .null, fuel, rest, hf, _ => by
      cases fuel with
      | zero => exact absurd hf (Nat.not_lt_zero _)
      | succ f => simp [writeJson, litNull, readVal]
  | .bool true, fuel, rest, hf, _ => by
      cases fuel with
      | zero => exact absurd hf (Nat.not_lt_zero _)
      | succ f => simp [writeJson, litTrue, readVal]
  | .bool false, fuel, rest, hf, _ => by
      cases fuel with
      | zero => exact absurd hf (Nat.not_lt_zero _)
      | succ f => simp [writeJson, litFalse, readVal]
  | .num n, fuel, rest, hf, hr => by
      cases fuel with
      | zero => exact absurd hf (Nat.not_lt_zero _)
      | succ f =>
          have hw : writeJson (.num n) = intChars n := by simp [writeJson]
          rw [hw]
          by_cases hn : n < 0
          · have hi : intChars n = '-' :: natChars n.natAbs := by simp [intChars, hn]
            rw [hi, List.cons_append,
              readVal_step_num f '-' _ (by decide) (by decide) (by decide) (by decide)
                (by decide) (by decide) (by decide)]
            rw [← List.cons_append, ← hi, readNum_intChars n rest hr]
          · obtain ⟨c, t, hct⟩ := List.exists_cons_of_ne_nil (natChars_ne_nil n.toNat)
            have hi : intChars n = c :: t := by simp [intChars, hn, hct]
            have hcd : c.isDigit = true := by
              apply natChars_digits n.toNat; rw [hct]; simp
            obtain ⟨-, -, hd1, hd2, hd3, hd4, hd5, hd6, -⟩ := digit_ne_marks c hcd
            rw [hi, List.cons_append,
              readVal_step_num f c _ (by simp [hcd]) hd1 hd2 hd3 hd4 hd5 hd6]
            rw [← List.cons_append, ← hi, readNum_intChars n rest hr]
  | .str s, fuel, rest, hf, _ => by
      cases fuel with
      | zero => exact absurd hf (Nat.not_lt_zero _)
      | succ f =>
          have harg : writeJson (.str s) ++ rest = '"' :: (escRun s.data ++ '"' :: rest) := by
            simp [writeJson]
          rw [harg]
          simp [readVal, readStr_escRun]
  | .arr [], fuel, rest, hf, _ => by
      cases fuel with
      | zero => exact absurd hf (Nat.not_lt_zero _)
      | succ f =>
          have harg : writeJson (.arr []) ++ rest = '[' :: ']' :: rest := by
            simp [writeJson, writeElems]
          rw [harg]
          simp [readVal]
  | .arr (e :: es), fuel, rest, hf, _ => by
      cases fuel with
      | zero => exact absurd hf (Nat.not_lt_zero _)
      | succ f =>
          have harg : writeJson (.arr (e :: es)) ++ rest
              = '[' :: (writeElems (e :: es) ++ ']' :: rest) := by
            simp [writeJson]
          have hwl : (writeJson (.arr (e :: es))).length
              = (writeElems (e :: es)).length + 2 := by
            simp [writeJson]
          have hrec := rt_elems e es f rest (by omega)
          rw [harg, readVal_step_arr f e es rest, hrec]
  | .obj [], fuel, rest, hf, _ => by
      cases fuel with
      | zero => exact absurd hf (Nat.not_lt_zero _)
      | succ f =>
          have harg : writeJson (.obj []) ++ rest = '{' :: '}' :: rest := by
            simp [writeJson, writeFields]
          rw [harg]
          simp [readVal]
  | .obj ((k, v) :: fs), fuel, rest, hf, _ => by
      cases fuel with
      | zero => exact absurd hf (Nat.not_lt_zero _)
      | succ f =>
          have harg : writeJson (.obj ((k, v) :: fs)) ++ rest
              = '{' :: (writeFields ((k, v) :: fs) ++ '}' :: rest) := by
            simp [writeJson]
          have hwl : (writeJson (.obj ((k, v) :: fs))).length
              = (writeFields ((k, v) :: fs)).length + 2 := by
            simp [writeJson]
          have hrec := rt_fields k v fs f rest (by omega)
          rw [harg, readVal_step_obj f k v fs rest, hrec]
termination_by v _ _ _ _ => sizeOf v

/-- Parsing a rendered non-empty element list up to `]` recovers it. -/
theorem rt_elems : ∀ (e : Json) (es : List Json) (fuel : Nat) (rest : List Char),
    (writeElems (e :: es)).length + 1 < fuel →
    readElems fuel (writeElems (e :: es) ++ ']' :: rest) = some (e :: es, rest)
  | e, [], fuel, rest, hf => by
      cases fuel with
      | zero => exact absurd hf (Nat.not_lt_zero _)
      | succ f =>
          have hsing : writeElems [e] = writeJson e := by simp [writeElems]
          rw [hsing] at hf
          have hv := rt_val e f (']' :: rest) (by omega)
            (by intro c hc; simp at hc; subst hc; decide)
          rw [hsing]
          simp [readElems, hv]
  | e, x :: xs, fuel, rest, hf => by
      cases fuel with
      | zero => exact absurd hf (Nat.not_lt_zero _)
      | succ f =>
          have hcons : writeElems (e :: x :: xs)
              = writeJson e ++ ',' :: writeElems (x :: xs) := by
            simp [writeElems]
          have hjlen : 1 ≤ (writeJson e).length := by
            obtain ⟨c, t, hct, -, -⟩ := writeJson_head e
            rw [hct, List.length_cons]
            omega
          rw [hcons] at hf
          rw [List.length_append, List.length_cons] at hf
          have hv := rt_val e f (',' :: (writeElems (x :: xs) ++ ']' :: rest))
            (by omega)
            (by intro c hc; simp at hc; subst hc; decide)
          have hrec := rt_elems x xs f rest (by omega)
          have harg : writeElems (e :: x :: xs) ++ ']' :: rest
              = writeJson e ++ (',' :: (writeElems (x :: xs) ++ ']' :: rest)) := by
            rw [hcons]
            simp
          rw [harg]
          simp [readElems, hv, hrec]
termination_by e es _ _ _ => sizeOf e + sizeOf es + 1

/-- Parsing a rendered non-empty member list up to `}` recovers it. -/
theorem rt_fields : ∀ (k : String) (v : Json) (fs : List (String × Json))
    (fuel : Nat) (rest : List Char),
    (writeFields ((k, v) :: fs)).length + 1 < fuel →
    readFields fuel (writeFields ((k, v) :: fs) ++ '}' :: rest) =
      some ((k, v) :: fs, rest)
  | k, v, [], fuel, rest, hf => by
      cases fuel with
      | zero => exact absurd hf (Nat.not_lt_zero _)
      | succ f =>
          have hsing : writeFields [(k, v)]
              = '"' :: (escRun k.data ++ '"' :: ':' :: writeJson v) := by
            simp [writeFields]
          rw [hsing] at hf
          rw [List.length_cons, List.length_append] at hf
          have hv := rt_val v f ('}' :: rest) (by simp at hf; omega)
            (by intro c hc; simp at hc; subst hc; decide)
          have harg : writeFields [(k, v)] ++ '}' :: rest
              = '"' :: (escRun k.data ++ '"' :: (':' :: (writeJson v ++ '}' :: rest))) := by
            rw [hsing]
            simp
          rw [harg]
          simp [readFields, readStr_escRun, hv]
  | k, v, (k2, v2) :: gs, fuel, rest, hf => by
      cases fuel with
      | zero => exact absurd hf (Nat.not_lt_zero _)
      | succ f =>
          have hcons : writeFields ((k, v) :: (k2, v2) :: gs)
              = '"' :: (escRun k.data ++ '"' :: ':' :: writeJson v)
                ++ ',' :: writeFields ((k2, v2) :: gs) := by
            simp [writeFields]
          rw [hcons] at hf
          rw [List.length_append, List.length_cons, List.length_append] at hf
          have hv := rt_val v f
            (',' :: (writeFields ((k2, v2) :: gs) ++ '}' :: rest))
            (by simp at hf; omega)
            (by intro c hc; simp at hc; subst hc; decide)
          have hrec := rt_fields k2 v2 gs f rest (by simp at hf; omega)
          have harg : writeFields ((k, v) :: (k2, v2) :: gs) ++ '}' :: rest
              = '"' :: (escRun k.data ++ '"' ::
                  (':' :: (writeJson v ++ ',' :: (writeFields ((k2, v2) :: gs) ++ '}' :: rest)))) := by
            rw [hcons]
            simp
          rw [harg]
          simp [readFields, readStr_escRun, hv, hrec]
termination_by _ v fs _ _ => sizeOf v + sizeOf fs + 1

end

/-- The JSON codec round-trip: parsing a rendered value yields it back. -/
theorem jsonParse_jsonStringify (v : Json) : jsonParse (jsonStringify v) = some v := by
  unfold jsonParse jsonStringify
  have h := rt_val v ((writeJson v).length + 1) [] (by omega)
    (by intro c hc; simp at hc)
  rw [List.append_nil] at h
  simp only [String.length, String.data]
  rw [h]

/-! ### Claim C9 -/

/-- C9: for every payment request carrying metadata, mapping it through the
request mapper and JSON-decoding the resulting `custom_field` of the wire
request yields the original metadata object back. -/
theorem mapToPaytechRequest_metadata_roundtrip (request : PaymentRequest)
    (environment : UnifiedEnv) (m : List (String × Json))
    (hm : request.metadata = some m) :
    ((mapToPaytechRequest request environment).custom_field).bind jsonParse =
      some (Json.obj m) := by
  simp [mapToPaytechRequest, hm, jsonParse_jsonStringify]

/-- A payment request carrying the metadata `{a: 1}`. -/
def c9Request : PaymentRequest :=
  { amount := 1000, currency := "XOF", reference := "REF-1",
    description := "Test payment", metadata := some [("a", Json.num 1)] }

/-- C9 witness: the spec's own vector — metadata `{a: 1}` survives the
encode/decode round trip through the wire request's custom field. -/
theorem mapToPaytechRequest_metadata_roundtrip_witness :
    ((mapToPaytechRequest c9Request UnifiedEnv.test).custom_field).bind jsonParse =
      some (Json.obj [("a", Json.num 1)]) :=
  mapToPaytechRequest_metadata_roundtrip c9Request UnifiedEnv.test
    [("a", Json.num 1)] rfl
